import Mathlib

/-!
Shallow embedding of the S3 streaming-write and server-side-copy engine
(`src/IO/S3/copyS3File.cpp` and `src/IO/WriteBufferFromS3.cpp`).

Machine integers (`size_t`) are modelled as `Nat`; the stream position
`temporary_buffer->tellp()` is modelled as `Int` because the source compares
it against `-1`/`0`.  Fallible C++ code (functions that may `throw`) is
modelled with `Except EngineError`.  Every remote call made by the engine is
recorded as an `Event` in an output trace, in program order.
-/

/-- Error kinds of the AWS outcome object.  Only `NO_SUCH_KEY` is inspected
by the engine (`outcome.GetError().GetErrorType() == Aws::S3::S3Errors::NO_SUCH_KEY`);
every other error type is collapsed into `otherType`. -/
inductive S3ErrorType where
  | noSuchKey
  | otherType
deriving DecidableEq, Repr

/-- An error returned by the S3 client: the enumerated error type, the
exception name string (`GetExceptionName()`, compared against
"EntityTooLarge" / "InvalidRequest" in the source) and the message. -/
structure S3Error where
  errorType : S3ErrorType
  exceptionName : String
  message : String
deriving DecidableEq, Repr

/-- Errors thrown by the engine itself:
`remote` models `S3Exception` / `Exception(..., S3_ERROR)`,
`configInvalid` models `Exception(..., INVALID_CONFIG_PARAMETER)`,
`logicalError` models `Exception(..., LOGICAL_ERROR)`. -/
inductive EngineError where
  | remote (msg : String)
  | configInvalid (msg : String)
  | logicalError (msg : String)
deriving DecidableEq, Repr

/-- One remote operation performed by the engine (a ProfileEvents-counted
client call), plus the `LOG_WARNING` emitted at the 10000-part ceiling. -/
inductive Event where
  | createMultipartUpload
  | uploadPart (part_number : Nat)
  | uploadPartCopy (part_number : Nat)
  | completeMultipartUpload
  | abortMultipartUpload
  | putObject
  | copyObject
  | headObject
  | warnMaxParts
deriving DecidableEq, Repr

instance {ε α : Type} [DecidableEq ε] [DecidableEq α] : DecidableEq (Except ε α) := fun x y =>
  match x, y with
  | .ok a, .ok b => if h : a = b then .isTrue (by rw [h]) else .isFalse (by simp [h])
  | .error a, .error b => if h : a = b then .isTrue (by rw [h]) else .isFalse (by simp [h])
  | .ok _, .error _ => .isFalse (by simp)
  | .error _, .ok _ => .isFalse (by simp)

/-- `S3Settings::RequestSettings::PartUploadSettings` (the fields the two
source files read). -/
structure PartUploadSettings where
  min_upload_part_size : Nat
  max_upload_part_size : Nat
  max_part_number : Nat
  max_single_part_upload_size : Nat
  max_single_operation_copy_size : Nat
  upload_part_size_multiply_factor : Nat
  upload_part_size_multiply_parts_count_threshold : Nat
  storage_class_name : String
deriving DecidableEq, Repr

/-- Ceiling division as written in the source: `(a + b - 1) / b`. -/
def cdiv (a b : Nat) : Nat := (a + b - 1) / b

/-- The final `if (num_parts < 1 || ... )` validation of
`UploadHelper::calculatePartSize` (copyS3File.cpp lines 264-283). -/
def partSizeFinalCheck (s : PartUploadSettings) (part_size num_parts : Nat) :
    Except EngineError Nat :=
  if num_parts < 1 ∨ num_parts > s.max_part_number ∨ part_size < s.min_upload_part_size
      ∨ part_size > s.max_upload_part_size then
    .error (.configInvalid
      (if num_parts < 1 then "Number of parts is zero"
       else if num_parts > s.max_part_number then "Number of parts exceeds max_part_number"
       else if part_size < s.min_upload_part_size then
         "Size of a part is less than min_upload_part_size"
       else "Size of a part exceeds max_upload_part_size"))
  else
    .ok part_size

/-- `UploadHelper::calculatePartSize` (copyS3File.cpp lines 237-287).
In the source `num_parts` is recomputed as `(total_size + part_size - 1) / part_size`
inside each adjustment branch; outside a branch it already equals that
expression for the current `part_size`, so this embedding computes
`num_parts := cdiv total_size part_size` unconditionally after each step,
which is equal in every control path. -/
def calculatePartSize (total_size : Nat) (s : PartUploadSettings) : Except EngineError Nat :=
  if total_size = 0 then
    .error (.logicalError "Chosen multipart upload for an empty file. This must not happen")
  else if s.max_part_number = 0 then
    .error (.configInvalid "max_part_number must not be 0")
  else if s.min_upload_part_size = 0 then
    .error (.configInvalid "min_upload_part_size must not be 0")
  else if s.max_upload_part_size < s.min_upload_part_size then
    .error (.configInvalid "max_upload_part_size must not be less than min_upload_part_size")
  else
    let p0 := s.min_upload_part_size
    let p1 := if cdiv total_size p0 > s.max_part_number
              then cdiv total_size s.max_part_number else p0
    let p2 := if p1 > s.max_upload_part_size then s.max_upload_part_size else p1
    partSizeFinalCheck s p2 (cdiv total_size p2)

theorem cdiv_eq_succ (a b : Nat) (ha : 0 < a) (hb : 0 < b) :
    cdiv a b = (a - 1) / b + 1 := by
  unfold cdiv
  have h1 : a + b - 1 = (a - 1) + b := by omega
  rw [h1, Nat.add_div_right _ hb]

theorem cdiv_pos (a b : Nat) (ha : 0 < a) (hb : 0 < b) : 0 < cdiv a b := by
  rw [cdiv_eq_succ a b ha hb]; exact Nat.succ_pos _

/-- The final part `a - (cdiv a b - 1) * b` is positive. -/
theorem final_part_pos (a b : Nat) (ha : 0 < a) (hb : 0 < b) :
    0 < a - (cdiv a b - 1) * b := by
  rw [cdiv_eq_succ a b ha hb, Nat.add_sub_cancel]
  have h := Nat.div_mul_le_self (a - 1) b
  generalize (a - 1) / b * b = m at h ⊢
  omega

/-- The final part `a - (cdiv a b - 1) * b` is at most `b`. -/
theorem final_part_le (a b : Nat) (ha : 0 < a) (hb : 0 < b) :
    a - (cdiv a b - 1) * b ≤ b := by
  rw [cdiv_eq_succ a b ha hb, Nat.add_sub_cancel]
  have hdm := Nat.div_add_mod (a - 1) b
  have hm : (a - 1) % b < b := Nat.mod_lt _ hb
  rw [Nat.mul_comm] at hdm
  generalize (a - 1) / b * b = m at hdm ⊢
  generalize (a - 1) % b = r at hdm hm
  omega

theorem partSizeFinalCheck_ok (s : PartUploadSettings) (part_size num_parts ps : Nat)
    (h : partSizeFinalCheck s part_size num_parts = .ok ps) :
    ps = part_size ∧ 1 ≤ num_parts ∧ num_parts ≤ s.max_part_number ∧
      s.min_upload_part_size ≤ part_size ∧ part_size ≤ s.max_upload_part_size := by
  unfold partSizeFinalCheck at h
  split at h
  · exact absurd h (by simp)
  next hg =>
    push_neg at hg
    have hps := (Except.ok.inj h).symm
    exact ⟨hps, by omega, by omega, by omega, by omega⟩

/-- If `calculatePartSize` returns `ps` then `ps` passed the final check with
`num_parts = cdiv total_size ps`. -/
theorem calculatePartSize_ok_shape (total_size : Nat) (s : PartUploadSettings) (ps : Nat)
    (h : calculatePartSize total_size s = .ok ps) :
    1 ≤ cdiv total_size ps ∧ cdiv total_size ps ≤ s.max_part_number ∧
      s.min_upload_part_size ≤ ps ∧ ps ≤ s.max_upload_part_size := by
  unfold calculatePartSize at h
  split at h
  · exact absurd h (by simp)
  split at h
  · exact absurd h (by simp)
  split at h
  · exact absurd h (by simp)
  split at h
  · exact absurd h (by simp)
  simp only at h
  obtain ⟨hps, h1, h2, h3, h4⟩ := partSizeFinalCheck_ok _ _ _ _ h
  subst hps
  exact ⟨h1, h2, h3, h4⟩

/-- Claim C2: for total size T > 0 and a policy with positive
`min_upload_part_size`, positive `max_part_number` and
`min_upload_part_size ≤ max_upload_part_size`, if `calculatePartSize`
returns `part_size` then `min ≤ part_size ≤ max`,
`ceil(T / part_size) ≤ max_part_number`, and the final part size
`T - (N - 1) * part_size` (with `N = ceil(T / part_size)`) lies in
`(0, part_size]`. -/
theorem part_size_planner_bounds (T : Nat) (P : PartUploadSettings) (part_size : Nat)
    (hT : 0 < T) (hmin : 0 < P.min_upload_part_size) (hmaxpn : 0 < P.max_part_number)
    (hminmax : P.min_upload_part_size ≤ P.max_upload_part_size)
    (h : calculatePartSize T P = .ok part_size) :
    P.min_upload_part_size ≤ part_size ∧ part_size ≤ P.max_upload_part_size ∧
      cdiv T part_size ≤ P.max_part_number ∧
      0 < T - (cdiv T part_size - 1) * part_size ∧
      T - (cdiv T part_size - 1) * part_size ≤ part_size := by
  obtain ⟨h1, h2, h3, h4⟩ := calculatePartSize_ok_shape T P part_size h
  have hps : 0 < part_size := lt_of_lt_of_le hmin h3
  exact ⟨h3, h4, h2, final_part_pos T part_size hT hps, final_part_le T part_size hT hps⟩

/-- Witness for C2 at T = 100, min = 10, max = 30, max_part_number = 5:
the planner picks part_size = 20 and all the claimed bounds hold. -/
theorem part_size_planner_bounds_witness :
    calculatePartSize 100
        { min_upload_part_size := 10, max_upload_part_size := 30, max_part_number := 5,
          max_single_part_upload_size := 0, max_single_operation_copy_size := 0,
          upload_part_size_multiply_factor := 2,
          upload_part_size_multiply_parts_count_threshold := 500,
          storage_class_name := "" } = .ok 20 ∧
      (10 ≤ 20 ∧ 20 ≤ 30 ∧ cdiv 100 20 ≤ 5 ∧
        0 < 100 - (cdiv 100 20 - 1) * 20 ∧ 100 - (cdiv 100 20 - 1) * 20 ≤ 20) :=
  ⟨by decide,
    part_size_planner_bounds 100
      { min_upload_part_size := 10, max_upload_part_size := 30, max_part_number := 5,
        max_single_part_upload_size := 0, max_single_operation_copy_size := 0,
        upload_part_size_multiply_factor := 2,
        upload_part_size_multiply_parts_count_threshold := 500,
        storage_class_name := "" } 20
      (by decide) (by decide) (by decide) (by decide) (by decide)⟩

/-! ## Multipart completion (copyS3File.cpp lines 140-192, WriteBufferFromS3.cpp lines 357-408) -/

/-- The `CompletedMultipartUpload` payload: one `(etag, part_number)` pair per
collected tag, part numbers `i + 1` in list order (both sources build it with
`part.WithETag(part_tags[i]).WithPartNumber(i + 1)` for `i = 0 .. size-1`). -/
def buildCompletedParts (tags : List String) : List (String × Nat) :=
  tags.enum.map fun p => (p.2, p.1 + 1)

/-- The retry loop of `UploadHelper::completeMultipartUpload`
(copyS3File.cpp lines 164-191): `for (size_t retries = 1;; ++retries)`.
The loop counter is represented by `retries` together with the remaining
budget `rem = max_retries - retries`, so that `retries < max_retries` holds
exactly when `rem` is a successor.  One client attempt is made per iteration;
`NO_SUCH_KEY` with budget left continues, any other failure (or an exhausted
budget) throws `S3Exception` (a `remote` error). -/
def completeLoopCopy (client : List (String × Nat) → Nat → Except S3Error Unit)
    (parts : List (String × Nat)) : Nat → Nat → List Event × Except EngineError Unit
  | rem, retries =>
    match client parts retries with
    | .ok _ => ([.completeMultipartUpload], .ok ())
    | .error e =>
      match rem with
      | n + 1 =>
        if e.errorType = S3ErrorType.noSuchKey then
          let r := completeLoopCopy client parts n (retries + 1)
          (.completeMultipartUpload :: r.1, r.2)
        else ([.completeMultipartUpload], .error (.remote e.message))
      | 0 => ([.completeMultipartUpload], .error (.remote e.message))

/-- `UploadHelper::completeMultipartUpload` (copyS3File.cpp lines 140-192):
returns immediately if the upload was aborted, throws `S3_ERROR` on an empty
tag list, otherwise submits `buildCompletedParts part_tags` with retry budget
`max(max_unexpected_write_error_retries, 1)`. -/
def UploadHelper.completeMultipartUpload (aborted : Bool) (part_tags : List String)
    (max_unexpected_write_error_retries : Nat)
    (client : List (String × Nat) → Nat → Except S3Error Unit) :
    List Event × Except EngineError Unit :=
  if aborted then ([], .ok ())
  else if part_tags.isEmpty then
    ([], .error (.remote "Failed to complete multipart upload. No parts have uploaded"))
  else
    completeLoopCopy client (buildCompletedParts part_tags)
      (max max_unexpected_write_error_retries 1 - 1) 1

/-- The retry loop of `WriteBufferFromS3::completeMultipartUpload`
(WriteBufferFromS3.cpp lines 380-407): `for (size_t i = 0; i < max_retry; ++i)`.
The first argument is the number of remaining iterations `max_retry - i`.
When the budget is exhausted the loop falls out and the function RETURNS
NORMALLY without reporting an error (the `([], .ok ())` base case). -/
def completeLoopWB (client : List (String × Nat) → Nat → Except S3Error Unit)
    (parts : List (String × Nat)) : Nat → Nat → List Event × Except EngineError Unit
  | 0, _ => ([], .ok ())
  | n + 1, i =>
    match client parts i with
    | .ok _ => ([.completeMultipartUpload], .ok ())
    | .error e =>
      if e.errorType = S3ErrorType.noSuchKey then
        let r := completeLoopWB client parts n (i + 1)
        (.completeMultipartUpload :: r.1, r.2)
      else ([.completeMultipartUpload], .error (.remote e.message))

/-- `WriteBufferFromS3::completeMultipartUpload` (WriteBufferFromS3.cpp lines
357-408): throws `S3_ERROR` on an empty tag list, otherwise submits
`buildCompletedParts part_tags` with retry budget
`max(max_unexpected_write_error_retries, 1)` (no aborted check: the streaming
writer has no abort machinery at all). -/
def WriteBufferFromS3.completeMultipartUpload (part_tags : List String)
    (max_unexpected_write_error_retries : Nat)
    (client : List (String × Nat) → Nat → Except S3Error Unit) :
    List Event × Except EngineError Unit :=
  if part_tags.isEmpty then
    ([], .error (.remote "Failed to complete multipart upload. No parts have uploaded"))
  else
    completeLoopWB client (buildCompletedParts part_tags)
      (max max_unexpected_write_error_retries 1) 0

/-- A stub client error: the phantom `NO_SUCH_KEY` answer. -/
def phantomNoSuchKey : S3Error :=
  { errorType := .noSuchKey, exceptionName := "NoSuchKey", message := "phantom" }

/-- Claim C1 (code bug): with `max_unexpected_write_error_retries = 2` and a
client that answers `NO_SUCH_KEY` to every `CompleteMultipartUpload` attempt,
`WriteBufferFromS3::completeMultipartUpload` makes its two attempts and then
RETURNS NORMALLY (`.ok`), reporting neither success nor failure, while the
same scenario in `UploadHelper::completeMultipartUpload` (copyS3File.cpp)
throws the `remote` error as the claim requires; and when the stub succeeds
on the second attempt, the streaming version does succeed within the budget. -/
theorem complete_retry_exhaustion_silent :
    (WriteBufferFromS3.completeMultipartUpload ["t1", "t2"] 2
        (fun _ _ => .error phantomNoSuchKey)).2 = .ok () ∧
      (WriteBufferFromS3.completeMultipartUpload ["t1", "t2"] 2
        (fun _ _ => .error phantomNoSuchKey)).1 =
        [.completeMultipartUpload, .completeMultipartUpload] ∧
      (UploadHelper.completeMultipartUpload false ["t1", "t2"] 2
        (fun _ _ => .error phantomNoSuchKey)).2 = .error (.remote "phantom") ∧
      (WriteBufferFromS3.completeMultipartUpload ["t1", "t2"] 2
        (fun _ i => if i = 1 then .ok () else .error phantomNoSuchKey)).2 = .ok () := by
  refine ⟨rfl, rfl, rfl, rfl⟩

/-- Claim C5: the `CompleteMultipartUpload` payload built from the collected
tags has exactly one `(etag, part_number)` entry per tag, in order, with part
numbers exactly the contiguous 1-based sequence `1..N`; and both engines throw
a `remote` error when the tag list is empty. -/
theorem complete_payload_contiguous :
    (∀ tags : List String,
        (buildCompletedParts tags).length = tags.length ∧
        (buildCompletedParts tags).map Prod.fst = tags ∧
        (buildCompletedParts tags).map Prod.snd = (List.range tags.length).map (· + 1)) ∧
      (∀ mur client, UploadHelper.completeMultipartUpload false [] mur client =
        ([], .error (.remote "Failed to complete multipart upload. No parts have uploaded"))) ∧
      (∀ mur client, WriteBufferFromS3.completeMultipartUpload [] mur client =
        ([], .error (.remote "Failed to complete multipart upload. No parts have uploaded"))) := by
  refine ⟨fun tags => ⟨?_, ?_, ?_⟩, fun mur client => rfl, fun mur client => rfl⟩
  · simp [buildCompletedParts]
  · rw [buildCompletedParts, List.map_map]
    have hc : (Prod.fst ∘ fun p : Nat × String => (p.2, p.1 + 1)) = Prod.snd := rfl
    rw [hc, List.enum_map_snd]
  · rw [buildCompletedParts, List.map_map]
    have hc : (Prod.snd ∘ fun p : Nat × String => (p.2, p.1 + 1)) =
        ((· + 1) ∘ Prod.fst) := rfl
    rw [hc, ← List.map_map, List.enum_map_fst]

/-! ## Streaming write front-end (`WriteBufferFromS3`), inline mode
(no thread-pool callback runner: `schedule == nullptr`, so every part is
uploaded inline on the caller thread, as in the source `else` branches). -/

/-- The S3 client consumed by the streaming writer.  Retried operations take
the 0-based attempt index; `completeMU` also receives the submitted payload. -/
structure WBClient where
  createMU : Except S3Error String
  uploadPart : Nat → Except S3Error String
  completeMU : List (String × Nat) → Nat → Except S3Error Unit
  putObject : Nat → Except S3Error Unit
  headObject : Except S3Error Unit

/-- Mutable state of `WriteBufferFromS3`: `temp` is
`temporary_buffer->tellp()` (an `Int`, `-1` meaning bad state), the remaining
fields are the members of the same names. -/
structure WBState where
  temp : Int
  last_part_size : Nat
  upload_part_size : Nat
  part_number : Nat
  multipart_upload_id : String
  part_tags : List String
  is_prefinalized : Bool
deriving DecidableEq, Repr

/-- The writer constructed by `WriteBufferFromS3::WriteBufferFromS3`:
`upload_part_size` starts at `settings.min_upload_part_size`, the fresh
buffer is empty. -/
def initWBState (s : PartUploadSettings) : WBState :=
  { temp := 0, last_part_size := 0, upload_part_size := s.min_upload_part_size,
    part_number := 0, multipart_upload_id := "", part_tags := [],
    is_prefinalized := false }

/-- The error message of the part-number ceiling check in
`WriteBufferFromS3::fillUploadRequest` (format arguments elided). -/
def partNumberExceededMsg : String :=
  "Part number exceeded max_part_number while writing to S3"

/-- `WriteBufferFromS3::fillUploadRequest` (WriteBufferFromS3.cpp lines
302-337): increments `part_number`; if a multipart upload is open and the new
number exceeds `max_part_number`, throws `INVALID_CONFIG_PARAMETER`;
otherwise builds the request (represented by the part number it carries) and
applies the geometric part-size growth every
`upload_part_size_multiply_parts_count_threshold` parts. -/
def fillUploadRequest (s : PartUploadSettings) (st : WBState) :
    WBState × Except EngineError Nat :=
  let pn := st.part_number + 1
  let st1 := { st with part_number := pn }
  if st1.multipart_upload_id ≠ "" ∧ pn > s.max_part_number then
    (st1, .error (.configInvalid partNumberExceededMsg))
  else
    let st2 :=
      if st1.multipart_upload_id ≠ ""
          ∧ pn % s.upload_part_size_multiply_parts_count_threshold = 0 then
        let grown := min (st1.upload_part_size * s.upload_part_size_multiply_factor)
          s.max_upload_part_size
        { st1 with upload_part_size := grown }
      else st1
    (st2, .ok pn)

/-- `WriteBufferFromS3::writePart` (WriteBufferFromS3.cpp lines 220-300),
inline branch: skips a bad-state buffer (`tellp() < 0`) and an empty buffer;
logs a warning when the collected tag count is exactly `S3_WARN_MAX_PARTS =
10000`; then fills the request, performs `UploadPart`
(`processUploadRequest`, which throws `S3Exception` on failure) and appends
the returned tag. -/
def writePart (s : PartUploadSettings) (c : WBClient) (st : WBState) :
    WBState × List Event × Except EngineError Unit :=
  if st.temp < 0 then (st, [], .ok ())
  else if st.temp = 0 then (st, [], .ok ())
  else
    let wevs : List Event := if st.part_tags.length = 10000 then [.warnMaxParts] else []
    match fillUploadRequest s st with
    | (st1, .error e) => (st1, wevs, .error e)
    | (st1, .ok pn) =>
      match c.uploadPart pn with
      | .ok tag =>
        ({ st1 with part_tags := st1.part_tags ++ [tag] }, wevs ++ [.uploadPart pn], .ok ())
      | .error e => (st1, wevs ++ [.uploadPart pn], .error (.remote e.message))

/-- `WriteBufferFromS3::allocateBuffer` (fresh temporary buffer). -/
def allocateBufferWB (st : WBState) : WBState :=
  { st with temp := 0, last_part_size := 0 }

/-- `WriteBufferFromS3::createMultipartUpload` (WriteBufferFromS3.cpp lines
193-218). -/
def createMultipartUploadWB (c : WBClient) (st : WBState) :
    WBState × List Event × Except EngineError Unit :=
  match c.createMU with
  | .ok uid => ({ st with multipart_upload_id := uid }, [.createMultipartUpload], .ok ())
  | .error e => (st, [.createMultipartUpload], .error (.remote e.message))

/-- `WriteBufferFromS3::nextImpl` (WriteBufferFromS3.cpp lines 99-129) for
one producer hand-over of `chunk` bytes (`offset()`): returns immediately on
an empty hand-over; reallocates a bad-state buffer; appends the bytes; opens
a multipart upload once the buffered part exceeds
`max_single_part_upload_size`; emits one part once the buffered part exceeds
`upload_part_size`.  (`waitForReadyBackGroundTasks` is a no-op without a
scheduler.) -/
def nextImpl (s : PartUploadSettings) (c : WBClient) (st : WBState) (chunk : Nat) :
    WBState × List Event × Except EngineError Unit :=
  if chunk = 0 then (st, [], .ok ())
  else
    let st0 := if st.temp < 0 then allocateBufferWB st else st
    let st1 := { st0 with temp := st0.temp + (chunk : Int),
                          last_part_size := st0.last_part_size + chunk }
    let create :=
      if st1.multipart_upload_id = "" ∧ st1.last_part_size > s.max_single_part_upload_size
      then createMultipartUploadWB c st1
      else (st1, [], .ok ())
    match create with
    | (st2, evs1, .error e) => (st2, evs1, .error e)
    | (st2, evs1, .ok _) =>
      if st2.multipart_upload_id ≠ "" ∧ st2.last_part_size > st2.upload_part_size then
        match writePart s c st2 with
        | (st3, evs2, .error e) => (st3, evs1 ++ evs2, .error e)
        | (st3, evs2, .ok _) => (allocateBufferWB st3, evs1 ++ evs2, .ok ())
      else (st2, evs1, .ok ())

/-- The retry loop of `WriteBufferFromS3::processPutRequest`
(WriteBufferFromS3.cpp lines 486-512): `for (size_t i = 0; i < max_retry;
++i)`; first argument is the remaining iteration count.  Retries only
`NO_SUCH_KEY`; there is NO `EntityTooLarge` / `InvalidRequest` fallback in
this loop, any such error is thrown as `S3Exception`. -/
def wbPutLoop (c : WBClient) : Nat → Nat → List Event × Except EngineError Unit
  | 0, _ => ([], .ok ())
  | n + 1, i =>
    match c.putObject i with
    | .ok _ => ([.putObject], .ok ())
    | .error e =>
      if e.errorType = S3ErrorType.noSuchKey then
        let r := wbPutLoop c n (i + 1)
        (.putObject :: r.1, r.2)
      else ([.putObject], .error (.remote e.message))

/-- `WriteBufferFromS3::makeSinglepartUpload` + `processPutRequest`, inline
branch (WriteBufferFromS3.cpp lines 410-512): skips a bad-state buffer, else
performs a single `PutObject` with retry budget
`max(max_unexpected_write_error_retries, 1)`. -/
def makeSinglepartUpload (c : WBClient) (mur : Nat) (st : WBState) :
    WBState × List Event × Except EngineError Unit :=
  if st.temp < 0 then (st, [], .ok ())
  else
    let r := wbPutLoop c (max mur 1) 0
    (st, r.1, r.2)

/-- `WriteBufferFromS3::preFinalize` (WriteBufferFromS3.cpp lines 158-173):
flushes (the internal `next()` hands over no new bytes in this model, every
producer byte having been delivered through `nextImpl`), then either makes a
single-part upload (no multipart open) or writes the rest as the last part;
marks `is_prefinalized`. -/
def preFinalize (s : PartUploadSettings) (c : WBClient) (mur : Nat) (st : WBState) :
    WBState × List Event × Except EngineError Unit :=
  let r := if st.multipart_upload_id = "" then makeSinglepartUpload c mur st
           else writePart s c st
  match r with
  | (st1, evs, .error e) => (st1, evs, .error e)
  | (st1, evs, .ok _) => ({ st1 with is_prefinalized := true }, evs, .ok ())

/-- `WriteBufferFromS3::finalizeImpl` (WriteBufferFromS3.cpp lines 175-191):
pre-finalizes if not done yet, waits for background tasks (no-op inline),
completes the multipart upload if one was opened, and optionally checks the
object with a `HeadObject`. -/
def finalizeImpl (s : PartUploadSettings) (c : WBClient) (mur : Nat)
    (check_objects_after_upload : Bool) (st : WBState) :
    WBState × List Event × Except EngineError Unit :=
  let pf := if ¬st.is_prefinalized then preFinalize s c mur st else (st, [], .ok ())
  match pf with
  | (st1, evs0, .error e) => (st1, evs0, .error e)
  | (st1, evs0, .ok _) =>
    let compl0 :=
      if st1.multipart_upload_id ≠ "" then
        WriteBufferFromS3.completeMultipartUpload st1.part_tags mur c.completeMU
      else ([], .ok ())
    match compl0 with
    | (evs1, .error e) => (st1, evs0 ++ evs1, .error e)
    | (evs1, .ok _) =>
      if check_objects_after_upload then
        match c.headObject with
        | .ok _ => (st1, evs0 ++ evs1 ++ [.headObject], .ok ())
        | .error e => (st1, evs0 ++ evs1 ++ [.headObject], .error (.remote e.message))
      else (st1, evs0 ++ evs1, .ok ())

/-- Deliver a list of producer chunks through `nextImpl`, stopping at the
first failure. -/
def writeChunks (s : PartUploadSettings) (c : WBClient) :
    List Nat → WBState → WBState × List Event × Except EngineError Unit
  | [], st => (st, [], .ok ())
  | ch :: rest, st =>
    match nextImpl s c st ch with
    | (st1, evs, .error e) => (st1, evs, .error e)
    | (st1, evs, .ok _) =>
      match writeChunks s c rest st1 with
      | (st2, evs2, r2) => (st2, evs ++ evs2, r2)

/-- A whole streaming write: construct the writer, deliver the chunks, then
`finalize()`. -/
def streamRun (s : PartUploadSettings) (c : WBClient) (mur : Nat)
    (check_objects_after_upload : Bool) (chunks : List Nat) :
    WBState × List Event × Except EngineError Unit :=
  match writeChunks s c chunks (initWBState s) with
  | (st, evs, .error e) => (st, evs, .error e)
  | (st, evs, .ok _) =>
    match finalizeImpl s c mur check_objects_after_upload st with
    | (st2, evs2, r2) => (st2, evs ++ evs2, r2)

/-! ## Copy engine (`copyS3File.cpp`), inline mode
(`schedule == nullptr`: `UploadHelper::uploadPart` runs each part on the
caller thread and failures throw immediately). -/

/-- The S3 client consumed by the copy helpers.  `uploadPart` /
`uploadPartCopy` receive `(part_number, part_offset, part_size)` — the
contents of the request built by the virtual `fillUploadPartRequest` — and
return the ETag.  Retried operations take the attempt counter. -/
structure CopyClient where
  createMU : Except S3Error String
  uploadPart : Nat → Nat → Nat → Except S3Error String
  uploadPartCopy : Nat → Nat → Nat → Except S3Error String
  completeMU : List (String × Nat) → Nat → Except S3Error Unit
  putObject : Nat → Except S3Error Unit
  copyObject : Nat → Except S3Error Unit

/-- `UploadHelper::uploadPart` (copyS3File.cpp lines 289-352), inline branch,
for one part: an empty part is skipped without any request; otherwise the
virtual submit (`processUploadPartRequest`, abstracted as `submitPart` with
its trace constructor `partEvent`) is performed; on failure it aborts the
multipart upload and throws. -/
def uploadPartInline (submitPart : Nat → Nat → Nat → Except S3Error String)
    (partEvent : Nat → Event) (pn p_off p_size : Nat) (tags : List String) :
    List String × List Event × Option EngineError :=
  if p_size = 0 then (tags, [], none)
  else
    match submitPart pn p_off p_size with
    | .ok tag => (tags ++ [tag], [partEvent pn], none)
    | .error e => (tags, [partEvent pn, .abortMultipartUpload], some (.remote e.message))

/-- The part loop of `UploadHelper::performMultipartUpload` (copyS3File.cpp
lines 220-231), inline mode: parts are processed in order and the first
failure stops the loop (the thrown exception propagates). -/
def uploadPartsInline (submitPart : Nat → Nat → Nat → Except S3Error String)
    (partEvent : Nat → Event) :
    List (Nat × Nat × Nat) → List String → List String × List Event × Option EngineError
  | [], tags => (tags, [], none)
  | (pn, p_off, p_size) :: rest, tags =>
    match uploadPartInline submitPart partEvent pn p_off p_size tags with
    | (tags1, evs, none) =>
      match uploadPartsInline submitPart partEvent rest tags1 with
      | (tags2, evs2, r2) => (tags2, evs ++ evs2, r2)
    | (tags1, evs, some err) => (tags1, evs, some err)

/-- The sequence of `(part_number, position, part_size)` triples produced by
the `for (size_t part_number = 1; position < end_position; ++part_number)`
loop of `performMultipartUpload`: part k (0-based) starts at
`start_offset + k * normal_part_size` and has size
`min(normal_part_size, size - k * normal_part_size)`. -/
def partsPlan (start_offset size normal_part_size : Nat) : List (Nat × Nat × Nat) :=
  (List.range (cdiv size normal_part_size)).map fun k =>
    (k + 1, start_offset + k * normal_part_size, min normal_part_size (size - k * normal_part_size))

/-- `UploadHelper::performMultipartUpload` (copyS3File.cpp lines 212-235),
inline mode: plan the part size, create the multipart upload, upload all
parts, wait (a no-op inline) and complete.  The two subclasses instantiate
`submitPart` / `partEvent` with their virtual `processUploadPartRequest`. -/
def performMultipartUploadInline (s : PartUploadSettings) (mur : Nat)
    (createMU : Except S3Error String)
    (submitPart : Nat → Nat → Nat → Except S3Error String) (partEvent : Nat → Event)
    (completeMU : List (String × Nat) → Nat → Except S3Error Unit)
    (start_offset size : Nat) : List Event × Except EngineError Unit :=
  match calculatePartSize size s with
  | .error e => ([], .error e)
  | .ok nps =>
    match createMU with
    | .error e => ([.createMultipartUpload], .error (.remote e.message))
    | .ok _uid =>
      match uploadPartsInline submitPart partEvent (partsPlan start_offset size nps) [] with
      | (_tags, evs, some err) => (.createMultipartUpload :: evs, .error err)
      | (tags, evs, none) =>
        match UploadHelper.completeMultipartUpload false tags mur completeMU with
        | (cevs, r) => (.createMultipartUpload :: (evs ++ cevs), r)

/-- `CopyDataToFileHelper::performMultipartUpload`: the data-upload
instantiation (parts are `UploadPart` requests). -/
def dataMultipartUpload (s : PartUploadSettings) (mur : Nat) (c : CopyClient)
    (start_offset size : Nat) : List Event × Except EngineError Unit :=
  performMultipartUploadInline s mur c.createMU c.uploadPart Event.uploadPart
    c.completeMU start_offset size

/-- `CopyFileHelper::performMultipartUploadCopy`: the server-side-copy
instantiation (parts are `UploadPartCopy` requests). -/
def copyMultipartUpload (s : PartUploadSettings) (mur : Nat) (c : CopyClient)
    (start_offset size : Nat) : List Event × Except EngineError Unit :=
  performMultipartUploadInline s mur c.createMU c.uploadPartCopy Event.uploadPartCopy
    c.completeMU start_offset size

/-- The retry loop of `CopyDataToFileHelper::processPutRequest`
(copyS3File.cpp lines 461-517): `for (size_t retries = 1;; ++retries)`, with
the remaining budget `max_retries - retries` as first argument.  On
`EntityTooLarge` / `InvalidRequest` (`GetExceptionName()` comparison) the
helper switches to `performMultipartUpload` for the same payload and breaks;
`NO_SUCH_KEY` is retried while budget remains; anything else throws. -/
def putLoopData (s : PartUploadSettings) (mur : Nat) (c : CopyClient)
    (start_offset size : Nat) : Nat → Nat → List Event × Except EngineError Unit
  | rem, retries =>
    match c.putObject retries with
    | .ok _ => ([.putObject], .ok ())
    | .error e =>
      if e.exceptionName = "EntityTooLarge" ∨ e.exceptionName = "InvalidRequest" then
        match dataMultipartUpload s mur c start_offset size with
        | (mevs, r) => (.putObject :: mevs, r)
      else
        match rem with
        | n + 1 =>
          if e.errorType = S3ErrorType.noSuchKey then
            let r := putLoopData s mur c start_offset size n (retries + 1)
            (.putObject :: r.1, r.2)
          else ([.putObject], .error (.remote e.message))
        | 0 => ([.putObject], .error (.remote e.message))

/-- `CopyDataToFileHelper::processPutRequest`, entered with `retries = 1` and
budget `max(max_unexpected_write_error_retries, 1)`. -/
def CopyDataToFileHelper.processPutRequest (s : PartUploadSettings) (mur : Nat)
    (c : CopyClient) (start_offset size : Nat) : List Event × Except EngineError Unit :=
  putLoopData s mur c start_offset size (max mur 1 - 1) 1

/-- The retry loop of `CopyFileHelper::processCopyRequest` (copyS3File.cpp
lines 626-682): identical shape to `putLoopData`, with `CopyObject` as the
single-shot request and `performMultipartUploadCopy` as the fallback. -/
def copyLoopFile (s : PartUploadSettings) (mur : Nat) (c : CopyClient)
    (start_offset size : Nat) : Nat → Nat → List Event × Except EngineError Unit
  | rem, retries =>
    match c.copyObject retries with
    | .ok _ => ([.copyObject], .ok ())
    | .error e =>
      if e.exceptionName = "EntityTooLarge" ∨ e.exceptionName = "InvalidRequest" then
        match copyMultipartUpload s mur c start_offset size with
        | (mevs, r) => (.copyObject :: mevs, r)
      else
        match rem with
        | n + 1 =>
          if e.errorType = S3ErrorType.noSuchKey then
            let r := copyLoopFile s mur c start_offset size n (retries + 1)
            (.copyObject :: r.1, r.2)
          else ([.copyObject], .error (.remote e.message))
        | 0 => ([.copyObject], .error (.remote e.message))

/-- `CopyFileHelper::processCopyRequest`, entered with `retries = 1` and
budget `max(max_unexpected_write_error_retries, 1)`. -/
def CopyFileHelper.processCopyRequest (s : PartUploadSettings) (mur : Nat)
    (c : CopyClient) (start_offset size : Nat) : List Event × Except EngineError Unit :=
  copyLoopFile s mur c start_offset size (max mur 1 - 1) 1

/-- `CopyDataToFileHelper::performCopy` (copyS3File.cpp lines 419-428)
without the optional post-upload HEAD. -/
def copyDataToS3File (s : PartUploadSettings) (mur : Nat) (c : CopyClient)
    (start_offset size : Nat) : List Event × Except EngineError Unit :=
  if size ≤ s.max_single_part_upload_size then
    CopyDataToFileHelper.processPutRequest s mur c start_offset size
  else
    dataMultipartUpload s mur c start_offset size

/-- `CopyFileHelper::performCopy` (copyS3File.cpp lines 583-592) without the
optional post-upload HEAD. -/
def copyS3File (s : PartUploadSettings) (mur : Nat) (c : CopyClient)
    (start_offset size : Nat) : List Event × Except EngineError Unit :=
  if size ≤ s.max_single_operation_copy_size then
    CopyFileHelper.processCopyRequest s mur c start_offset size
  else
    copyMultipartUpload s mur c start_offset size

/-! ## Claims C6, C9, C10 -/

/-- An all-succeeding stub client for the streaming writer. -/
def okWBClient : WBClient :=
  { createMU := .ok "u", uploadPart := fun _ => .ok "tag",
    completeMU := fun _ _ => .ok (), putObject := fun _ => .ok (),
    headObject := .ok () }

theorem fillUploadRequest_guard_error (s : PartUploadSettings) (st : WBState)
    (hmp : st.multipart_upload_id ≠ "") (hg : st.part_number + 1 > s.max_part_number) :
    fillUploadRequest s st =
      ({ st with part_number := st.part_number + 1 },
        .error (.configInvalid partNumberExceededMsg)) := by
  unfold fillUploadRequest
  rw [if_pos]
  exact ⟨hmp, hg⟩

theorem fillUploadRequest_ok_pn (s : PartUploadSettings) (st st1 : WBState) (pn : Nat)
    (hmp : st.multipart_upload_id ≠ "")
    (h : fillUploadRequest s st = (st1, .ok pn)) :
    pn = st.part_number + 1 ∧ pn ≤ s.max_part_number := by
  simp only [fillUploadRequest] at h
  split at h
  · simp at h
  next hg =>
    have h2 := congrArg Prod.snd h
    simp only at h2
    have hpn := Except.ok.inj h2
    subst hpn
    refine ⟨rfl, ?_⟩
    by_contra hlt
    exact hg ⟨hmp, by omega⟩

/-- Claim C6: with an open multipart upload and a non-empty part buffer,
every `UploadPart` network call issued by `writePart` carries a part number
at most `max_part_number`; and when the next emission would exceed
`max_part_number`, `writePart` fails with `configInvalid` and performs NO
network call for that part. -/
theorem part_number_ceiling_guard (s : PartUploadSettings) (c : WBClient) (st : WBState)
    (hmp : st.multipart_upload_id ≠ "") (hsz : (0 : Int) < st.temp) :
    (∀ pn, Event.uploadPart pn ∈ (writePart s c st).2.1 → pn ≤ s.max_part_number) ∧
      (st.part_number + 1 > s.max_part_number →
        (writePart s c st).2.2 = .error (.configInvalid partNumberExceededMsg) ∧
          ∀ pn, Event.uploadPart pn ∉ (writePart s c st).2.1) := by
  have h1 : ¬st.temp < 0 := by omega
  have h2 : ¬st.temp = 0 := by omega
  unfold writePart
  simp only [if_neg h1, if_neg h2]
  rcases hfe : fillUploadRequest s st with ⟨st1, r⟩
  cases r with
  | error e =>
    have he : e = .configInvalid partNumberExceededMsg := by
      simp only [fillUploadRequest] at hfe
      split at hfe
      · have h3 := congrArg Prod.snd hfe
        simp only at h3
        exact (Except.error.inj h3).symm
      · simp at hfe
    subst he
    constructor
    · intro pn hmem
      by_cases hl : st.part_tags.length = 10000 <;> simp [hl] at hmem
    · intro _
      refine ⟨rfl, fun pn hmem => ?_⟩
      by_cases hl : st.part_tags.length = 10000 <;> simp [hl] at hmem
  | ok pn0 =>
    obtain ⟨hpn, hle⟩ := fillUploadRequest_ok_pn s st st1 pn0 hmp hfe
    constructor
    · intro pn hmem
      by_cases hl : st.part_tags.length = 10000 <;>
        rcases hup : c.uploadPart pn0 with tag | e <;>
        simp [hup, hl] at hmem <;>
        omega
    · intro hg
      exact absurd hle (by omega)

/-- Policy used by the C6 witness: `max_part_number = 2`. -/
def partCeilingSettings : PartUploadSettings :=
  { min_upload_part_size := 5, max_upload_part_size := 10, max_part_number := 2,
    max_single_part_upload_size := 3, max_single_operation_copy_size := 0,
    upload_part_size_multiply_factor := 2,
    upload_part_size_multiply_parts_count_threshold := 500, storage_class_name := "" }

/-- Writer state used by the C6 witness: two parts already emitted, open
upload id "u", one buffered byte. -/
def partCeilingState : WBState :=
  { temp := 1, last_part_size := 1, upload_part_size := 5, part_number := 2,
    multipart_upload_id := "u", part_tags := ["a", "b"], is_prefinalized := false }

/-- Witness for C6 on the concrete state above: the next emission fails with
`configInvalid` and produces no `UploadPart` call. -/
theorem part_number_ceiling_guard_witness :
    partCeilingState.multipart_upload_id ≠ "" ∧ (0 : Int) < partCeilingState.temp ∧
      (writePart partCeilingSettings okWBClient partCeilingState).2.2 =
        .error (.configInvalid partNumberExceededMsg) ∧
      Event.uploadPart 3 ∉ (writePart partCeilingSettings okWBClient partCeilingState).2.1 :=
  ⟨by decide, by decide,
    ((part_number_ceiling_guard partCeilingSettings okWBClient partCeilingState
        (by decide) (by decide)).2 (by decide)).1,
    ((part_number_ceiling_guard partCeilingSettings okWBClient partCeilingState
        (by decide) (by decide)).2 (by decide)).2 3⟩

/-- Claim C9: a zero-size part operation is a no-op — the copy path
(`UploadHelper::uploadPart` with `part_size == 0`) issues no request and
leaves the tags unchanged, and the streaming path
(`WriteBufferFromS3::writePart` with an empty buffer) does the same and
returns without error. -/
theorem empty_part_skipped :
    (∀ submitPart partEvent pn p_off tags,
        uploadPartInline submitPart partEvent pn p_off 0 tags = (tags, [], none)) ∧
      (∀ (s : PartUploadSettings) (c : WBClient) (lp up pn : Nat) (uid : String)
          (tags : List String) (pf : Bool),
        writePart s c
            { temp := 0, last_part_size := lp, upload_part_size := up,
              part_number := pn, multipart_upload_id := uid, part_tags := tags,
              is_prefinalized := pf } =
          ({ temp := 0, last_part_size := lp, upload_part_size := up,
             part_number := pn, multipart_upload_id := uid, part_tags := tags,
             is_prefinalized := pf }, [], .ok ())) := by
  refine ⟨fun _ _ _ _ _ => rfl, fun s c lp up pn uid tags pf => ?_⟩
  simp [writePart]

/-- Claim C10: when the collected tag count stands exactly at the protocol
ceiling `S3_WARN_MAX_PARTS = 10000`, `writePart` only logs the warning and
proceeds: the `UploadPart` call for the next part is still issued, and the
engine raises no error of its own (a success of the client yields `.ok`). -/
theorem warn_max_parts_only_warns (s : PartUploadSettings) (c : WBClient) (st : WBState)
    (hlen : st.part_tags.length = 10000) (hsz : (0 : Int) < st.temp)
    (hmp : st.multipart_upload_id ≠ "") (hpn : st.part_number + 1 ≤ s.max_part_number) :
    Event.warnMaxParts ∈ (writePart s c st).2.1 ∧
      Event.uploadPart (st.part_number + 1) ∈ (writePart s c st).2.1 ∧
      (∀ tag, c.uploadPart (st.part_number + 1) = .ok tag →
        (writePart s c st).2.2 = .ok ()) := by
  have h1 : ¬st.temp < 0 := by omega
  have h2 : ¬st.temp = 0 := by omega
  unfold writePart
  simp only [if_neg h1, if_neg h2, if_pos hlen]
  rcases hfe : fillUploadRequest s st with ⟨st1, r⟩
  cases r with
  | error e =>
    exfalso
    simp only [fillUploadRequest] at hfe
    split at hfe
    · next hg => exact absurd hg.2 (by omega)
    · simp at hfe
  | ok pn0 =>
    obtain ⟨hpn0, _⟩ := fillUploadRequest_ok_pn s st st1 pn0 hmp hfe
    subst hpn0
    simp only [hfe]
    rcases hup : c.uploadPart (st.part_number + 1) with e | tag
    · simp [hup]
    · simp [hup]

/-- Policy used by the C10 witness: `max_part_number = 20000`, above the
protocol ceiling. -/
def warnCeilingSettings : PartUploadSettings :=
  { min_upload_part_size := 5, max_upload_part_size := 10, max_part_number := 20000,
    max_single_part_upload_size := 3, max_single_operation_copy_size := 0,
    upload_part_size_multiply_factor := 2,
    upload_part_size_multiply_parts_count_threshold := 500, storage_class_name := "" }

/-- Writer state used by the C10 witness: exactly 10000 collected tags. -/
def warnCeilingState : WBState :=
  { temp := 1, last_part_size := 1, upload_part_size := 5, part_number := 10000,
    multipart_upload_id := "u", part_tags := List.replicate 10000 "t",
    is_prefinalized := false }

/-- Witness for C10: at exactly 10000 collected tags the warning is emitted,
part 10001 is still uploaded, and the engine reports success. -/
theorem warn_max_parts_only_warns_witness :
    warnCeilingState.part_tags.length = 10000 ∧
      Event.warnMaxParts ∈ (writePart warnCeilingSettings okWBClient warnCeilingState).2.1 ∧
      Event.uploadPart 10001 ∈
        (writePart warnCeilingSettings okWBClient warnCeilingState).2.1 ∧
      (writePart warnCeilingSettings okWBClient warnCeilingState).2.2 = .ok () :=
  have hlen : warnCeilingState.part_tags.length = 10000 := by
    simp only [warnCeilingState, List.length_replicate]
  have hmain := warn_max_parts_only_warns warnCeilingSettings okWBClient warnCeilingState
    hlen (by decide) (by decide) (by decide)
  ⟨hlen, hmain.1, hmain.2.1, hmain.2.2 "tag" rfl⟩

/-! ## Claim C3: single-shot fallback to multipart -/

/-- The server rejection that must trigger the multipart fallback. -/
def entityTooLargeError : S3Error :=
  { errorType := .otherType, exceptionName := "EntityTooLarge", message := "too large" }

/-- A permissive policy for counterexample runs. -/
def looseSettings : PartUploadSettings :=
  { min_upload_part_size := 1, max_upload_part_size := 100, max_part_number := 100,
    max_single_part_upload_size := 100, max_single_operation_copy_size := 100,
    upload_part_size_multiply_factor := 2,
    upload_part_size_multiply_parts_count_threshold := 1000, storage_class_name := "" }

/-- A streaming-writer client whose `PutObject` always answers
`EntityTooLarge` while everything else succeeds. -/
def putTooLargeWBClient : WBClient :=
  { createMU := .ok "u", uploadPart := fun _ => .ok "tag",
    completeMU := fun _ _ => .ok (), putObject := fun _ => .error entityTooLargeError,
    headObject := .ok () }

/-- A copy-engine client whose single-shot requests always answer
`EntityTooLarge` while the multipart operations succeed. -/
def tooLargeCopyClient : CopyClient :=
  { createMU := .ok "u", uploadPart := fun _ _ _ => .ok "tag",
    uploadPartCopy := fun _ _ _ => .ok "ctag",
    completeMU := fun _ _ => .ok (),
    putObject := fun _ => .error entityTooLargeError,
    copyObject := fun _ => .error entityTooLargeError }

/-- Counterexample to C3 as stated: the claim quantifies over the streaming
write path as well, but `WriteBufferFromS3::processPutRequest` has no
`EntityTooLarge` / `InvalidRequest` fallback.  A whole streaming write of 2
bytes against a stub client answering `EntityTooLarge` to `PutObject` fails
with a `remote` error after its single `PutObject` and performs no multipart
call at all. -/
theorem single_shot_fallback_counterexample :
    (streamRun looseSettings putTooLargeWBClient 1 false [2]).2.1 = [.putObject] ∧
      (streamRun looseSettings putTooLargeWBClient 1 false [2]).2.2 =
        .error (.remote "too large") ∧
      Event.createMultipartUpload ∉
        (streamRun looseSettings putTooLargeWBClient 1 false [2]).2.1 := by
  refine ⟨rfl, rfl, by decide⟩

/-- Claim C3 (amended): the two single-shot paths of the COPY engine — the
`PutObject` of `copyDataToS3File` and the `CopyObject` of `copyS3File` — on
receiving `EntityTooLarge` or `InvalidRequest` at any loop iteration, switch
mid-operation to the multipart path for the same payload; the streaming
write's single `PutObject` (`WriteBufferFromS3::processPutRequest`) does not
fall back: it throws the error. -/
theorem single_shot_fallback_copy_engine :
    (∀ (s : PartUploadSettings) (mur : Nat) (c : CopyClient) (off size rem retries : Nat)
        (e : S3Error), c.putObject retries = .error e →
      (e.exceptionName = "EntityTooLarge" ∨ e.exceptionName = "InvalidRequest") →
      putLoopData s mur c off size rem retries =
        (.putObject :: (dataMultipartUpload s mur c off size).1,
          (dataMultipartUpload s mur c off size).2)) ∧
    (∀ (s : PartUploadSettings) (mur : Nat) (c : CopyClient) (off size rem retries : Nat)
        (e : S3Error), c.copyObject retries = .error e →
      (e.exceptionName = "EntityTooLarge" ∨ e.exceptionName = "InvalidRequest") →
      copyLoopFile s mur c off size rem retries =
        (.copyObject :: (copyMultipartUpload s mur c off size).1,
          (copyMultipartUpload s mur c off size).2)) ∧
    (∀ (c : WBClient) (n i : Nat) (e : S3Error), c.putObject i = .error e →
      (e.exceptionName = "EntityTooLarge" ∨ e.exceptionName = "InvalidRequest") →
      e.errorType ≠ S3ErrorType.noSuchKey →
      wbPutLoop c (n + 1) i = ([.putObject], .error (.remote e.message))) := by
  refine ⟨fun s mur c off size rem retries e hput hname => ?_,
    fun s mur c off size rem retries e hcopy hname => ?_,
    fun c n i e hput hname htype => ?_⟩
  · unfold putLoopData
    simp only [hput]
    rw [if_pos hname]
  · unfold copyLoopFile
    simp only [hcopy]
    rw [if_pos hname]
  · unfold wbPutLoop
    simp only [hput]
    rw [if_neg htype]

/-- Witness for C3 (amended) on concrete inputs: the copy-engine loops
switch to multipart, the streaming loop throws. -/
theorem single_shot_fallback_copy_engine_witness :
    tooLargeCopyClient.putObject 1 = .error entityTooLargeError ∧
      tooLargeCopyClient.copyObject 1 = .error entityTooLargeError ∧
      putTooLargeWBClient.putObject 0 = .error entityTooLargeError ∧
      putLoopData looseSettings 1 tooLargeCopyClient 0 5 0 1 =
        (.putObject :: (dataMultipartUpload looseSettings 1 tooLargeCopyClient 0 5).1,
          (dataMultipartUpload looseSettings 1 tooLargeCopyClient 0 5).2) ∧
      copyLoopFile looseSettings 1 tooLargeCopyClient 0 5 0 1 =
        (.copyObject :: (copyMultipartUpload looseSettings 1 tooLargeCopyClient 0 5).1,
          (copyMultipartUpload looseSettings 1 tooLargeCopyClient 0 5).2) ∧
      wbPutLoop putTooLargeWBClient 1 0 = ([.putObject], .error (.remote "too large")) :=
  ⟨rfl, rfl, rfl,
    single_shot_fallback_copy_engine.1 looseSettings 1 tooLargeCopyClient 0 5 0 1
      entityTooLargeError rfl (Or.inl rfl),
    single_shot_fallback_copy_engine.2.1 looseSettings 1 tooLargeCopyClient 0 5 0 1
      entityTooLargeError rfl (Or.inl rfl),
    single_shot_fallback_copy_engine.2.2 putTooLargeWBClient 0 0
      entityTooLargeError rfl (Or.inl rfl) (by decide)⟩

/-! ## Claim C8: exact single-part boundary -/

/-- While the buffered part never exceeds `max_single_part_upload_size`, a
producer hand-over leaves the writer in single-part mode: no multipart upload
is opened, no part is emitted, no event occurs. -/
theorem nextImpl_below_single (s : PartUploadSettings) (c : WBClient) (st : WBState)
    (ch : Nat) (hid : st.multipart_upload_id = "")
    (htemp : st.temp = (st.last_part_size : Int))
    (hle : st.last_part_size + ch ≤ s.max_single_part_upload_size) :
    nextImpl s c st ch =
      ({ st with temp := ((st.last_part_size + ch : Nat) : Int),
                 last_part_size := st.last_part_size + ch }, [], .ok ()) := by
  obtain ⟨t, lp, up, pn, uid, tags, pf⟩ := st
  simp only at hid htemp hle
  subst hid
  subst htemp
  by_cases hch : ch = 0
  · subst hch
    simp [nextImpl]
  · have hneg : ¬((lp : Int) < 0) := by omega
    have hgt : ¬(lp + ch > s.max_single_part_upload_size) := by omega
    simp [nextImpl, hch, hneg, hgt, Nat.cast_add]

/-- Delivering chunks whose running total stays at or below
`max_single_part_upload_size` accumulates bytes in the part buffer and does
nothing else. -/
theorem writeChunks_below_single (s : PartUploadSettings) (c : WBClient)
    (chunks : List Nat) :
    ∀ st : WBState, st.multipart_upload_id = "" →
      st.temp = (st.last_part_size : Int) →
      st.last_part_size + chunks.sum ≤ s.max_single_part_upload_size →
      writeChunks s c chunks st =
        ({ st with temp := ((st.last_part_size + chunks.sum : Nat) : Int),
                   last_part_size := st.last_part_size + chunks.sum }, [], .ok ()) := by
  induction chunks with
  | nil =>
    intro st hid htemp _
    obtain ⟨t, lp, up, pn, uid, tags, pf⟩ := st
    simp only at hid htemp
    subst hid
    subst htemp
    simp [writeChunks]
  | cons ch rest ih =>
    intro st hid htemp hsum
    have hle : st.last_part_size + ch ≤ s.max_single_part_upload_size := by
      have := List.sum_cons (a := ch) (l := rest)
      omega
    have hni := nextImpl_below_single s c st ch hid htemp hle
    have hrec := ih { st with temp := ((st.last_part_size + ch : Nat) : Int),
                              last_part_size := st.last_part_size + ch }
      (by simp [hid]) (by simp)
      (by simp only [List.sum_cons] at hsum; simp; omega)
    unfold writeChunks
    simp only [hni, hrec]
    simp [List.sum_cons, Nat.add_assoc]

/-- Claim C8: a streaming write whose total committed bytes equal exactly
`max_single_part_upload_size` performs exactly one `PutObject` and zero
multipart calls (no `CreateMultipartUpload`, `UploadPart` or
`CompleteMultipartUpload`): its whole event trace is `[putObject]`. -/
theorem exact_single_part_boundary (s : PartUploadSettings) (c : WBClient) (mur : Nat)
    (chunks : List Nat) (hsum : chunks.sum = s.max_single_part_upload_size)
    (hput : c.putObject 0 = .ok ()) :
    (streamRun s c mur false chunks).2.1 = [Event.putObject] ∧
      (streamRun s c mur false chunks).2.2 = .ok () := by
  have hwc := writeChunks_below_single s c chunks (initWBState s) rfl rfl
    (by simp only [initWBState]; omega)
  obtain ⟨k, hk⟩ : ∃ k, max mur 1 = k + 1 := ⟨max mur 1 - 1, by omega⟩
  have hneg : ¬(((0 + chunks.sum : Nat) : Int) < 0) := by omega
  unfold streamRun
  simp only [hwc]
  unfold finalizeImpl preFinalize makeSinglepartUpload
  simp only [initWBState, hk, hneg]
  unfold wbPutLoop
  simp [hput]

/-- Policy used by the C8 witness: `max_single_part_upload_size = 5`. -/
def boundarySettings : PartUploadSettings :=
  { min_upload_part_size := 1, max_upload_part_size := 100, max_part_number := 100,
    max_single_part_upload_size := 5, max_single_operation_copy_size := 100,
    upload_part_size_multiply_factor := 2,
    upload_part_size_multiply_parts_count_threshold := 1000, storage_class_name := "" }

/-- Witness for C8: writing 3 + 2 = 5 bytes with
`max_single_part_upload_size = 5` gives the trace `[putObject]`. -/
theorem exact_single_part_boundary_witness :
    ([3, 2] : List Nat).sum = boundarySettings.max_single_part_upload_size ∧
      okWBClient.putObject 0 = .ok () ∧
      (streamRun boundarySettings okWBClient 1 false [3, 2]).2.1 = [Event.putObject] ∧
      (streamRun boundarySettings okWBClient 1 false [3, 2]).2.2 = .ok () :=
  have h := exact_single_part_boundary boundarySettings okWBClient 1 [3, 2] (by decide) rfl
  ⟨by decide, rfl, h.1, h.2⟩

/-! ## Claim C4: abort on part failure -/

/-- A streaming-writer client whose `UploadPart` always fails. -/
def partFailWBClient : WBClient :=
  { createMU := .ok "u",
    uploadPart := fun _ =>
      .error { errorType := .otherType, exceptionName := "InternalError", message := "boom" },
    completeMU := fun _ _ => .ok (), putObject := fun _ => .ok (), headObject := .ok () }

/-- Policy that forces an early multipart switch
(`max_single_part_upload_size = 1`). -/
def tinySettings : PartUploadSettings :=
  { min_upload_part_size := 1, max_upload_part_size := 100, max_part_number := 100,
    max_single_part_upload_size := 1, max_single_operation_copy_size := 0,
    upload_part_size_multiply_factor := 2,
    upload_part_size_multiply_parts_count_threshold := 1000, storage_class_name := "" }

/-- Counterexample to C4 as stated: the claim quantifies over every multipart
upload, but in the streaming engine (`WriteBufferFromS3`) a part failure
surfaces to the caller with NO `AbortMultipartUpload` ever being issued —
the file contains no abort call at all.  A 2-byte streaming write that opens
a multipart upload and then fails part 1 ends in a `remote` error with trace
`[createMultipartUpload, uploadPart 1]` and zero abort events. -/
theorem abort_on_part_failure_counterexample :
    (streamRun tinySettings partFailWBClient 1 false [2]).2.2 = .error (.remote "boom") ∧
      (streamRun tinySettings partFailWBClient 1 false [2]).2.1 =
        [.createMultipartUpload, .uploadPart 1] ∧
      Event.abortMultipartUpload ∉
        (streamRun tinySettings partFailWBClient 1 false [2]).2.1 := by
  refine ⟨rfl, rfl, by decide⟩

/-! ## Background-task scheduler of the copy engine
(copyS3File.cpp: `UploadHelper::uploadPart` with a scheduler, `processUploadTask`,
`waitForAllBackGroundTasks`).  The executor is modelled by the order in which
scheduled tasks complete: `order` lists the 0-based enqueue indices in
completion order.  The abort response `abortResp` is what the server answers
to `AbortMultipartUpload`; the source ignores that response entirely. -/

/-- One record of the `bg_tasks` list (copyS3File.cpp lines 91-97). -/
structure SchedTask where
  part_number : Nat
  is_finished : Bool
  tag : String
  exception : Option S3Error
deriving DecidableEq, Repr

/-- A freshly enqueued task for part `pn` (`bg_tasks.emplace_back()` plus the
request filled by `fillUploadPartRequest`). -/
def initTask (pn : Nat) : SchedTask :=
  { part_number := pn, is_finished := false, tag := "", exception := none }

/-- The task list after `performMultipartUpload` has scheduled parts
`1 .. n`. -/
def initTasks (n : Nat) : List SchedTask :=
  (List.range n).map fun i => initTask (i + 1)

/-- `processUploadTask` for one background task (copyS3File.cpp lines
326-337 and 354-364): if the upload was already aborted the task returns
without submitting; otherwise `processUploadPartRequest` submits the part
and, on failure, aborts the multipart upload (response `_abortResp`
discarded) and stores the exception into the task record. -/
def runOneTask (upload : Nat → Except S3Error String) (_abortResp : Except S3Error Unit)
    (aborted : Bool) (t : SchedTask) : SchedTask × Bool × List Event :=
  if aborted then ({ t with is_finished := true }, aborted, [])
  else
    match upload t.part_number with
    | .ok tg => ({ t with is_finished := true, tag := tg }, aborted, [.uploadPart t.part_number])
    | .error e =>
      ({ t with is_finished := true, exception := some e }, true,
        [.uploadPart t.part_number, .abortMultipartUpload])

/-- Run the scheduled tasks in executor completion order `order` (0-based
enqueue indices), threading the atomic `multipart_upload_aborted` flag. -/
def execTasks (upload : Nat → Except S3Error String) (abortResp : Except S3Error Unit) :
    List Nat → List SchedTask → Bool → List Event → List SchedTask × Bool × List Event
  | [], ts, ab, evs => (ts, ab, evs)
  | i :: rest, ts, ab, evs =>
    match runOneTask upload abortResp ab (ts.getD i (initTask 0)) with
    | (t1, ab1, evs1) => execTasks upload abortResp rest (ts.set i t1) ab1 (evs ++ evs1)

/-- `waitForAllBackGroundTasks` (copyS3File.cpp lines 369-394): scan the task
records in enqueue order; at the first stored exception abort once more
(response `_abortResp` discarded) and rethrow; otherwise harvest the tags in
enqueue order. -/
def harvest (_abortResp : Except S3Error Unit) :
    List SchedTask → List String → List Event →
    List String × List Event × Except EngineError Unit
  | [], tags, evs => (tags, evs, .ok ())
  | t :: rest, tags, evs =>
    match t.exception with
    | some e => (tags, evs ++ [.abortMultipartUpload], .error (.remote e.message))
    | none => harvest _abortResp rest (tags ++ [t.tag]) evs

/-- A scheduled multipart part phase: schedule `n` parts, let the executor
complete them in order `order`, then wait for and harvest all of them. -/
def schedRun (upload : Nat → Except S3Error String) (abortResp : Except S3Error Unit)
    (n : Nat) (order : List Nat) : List String × List Event × Except EngineError Unit :=
  match execTasks upload abortResp order (initTasks n) false [] with
  | (ts, _ab, evs) => harvest abortResp ts [] evs

/-- The tag a successful submit returns (empty for a failed one). -/
def outTag : Except S3Error String → String
  | .ok t => t
  | .error _ => ""

/-- The record of a task that completed successfully. -/
def doneTask (upload : Nat → Except S3Error String) (pn : Nat) : SchedTask :=
  { part_number := pn, is_finished := true, tag := outTag (upload pn), exception := none }

theorem getD_set_self {α : Type} :
    ∀ (l : List α) (i : Nat) (a d : α), i < l.length → (l.set i a).getD i d = a
  | [], i, a, d, h => absurd h (by simp)
  | _ :: _, 0, _, _, _ => rfl
  | _ :: xs, i + 1, a, d, h => getD_set_self xs i a d (by simpa using h)

theorem getD_set_ne {α : Type} :
    ∀ (l : List α) (i j : Nat) (a d : α), i ≠ j → (l.set i a).getD j d = l.getD j d
  | [], _, _, _, _, _ => by simp
  | _ :: _, 0, 0, _, _, h => absurd rfl h
  | _ :: _, 0, _ + 1, _, _, _ => rfl
  | _ :: _, _ + 1, 0, _, _, _ => rfl
  | _ :: xs, i + 1, j + 1, a, d, h =>
    getD_set_ne xs i j a d (fun hc => h (by rw [hc]))

theorem getD_map_range {α : Type} (f : Nat → α) (n i : Nat) (d : α) (h : i < n) :
    ((List.range n).map f).getD i d = f i := by
  rw [List.getD_eq_getElem?_getD, List.getElem?_map, List.getElem?_range h]
  rfl

theorem list_eq_of_getD {α : Type} (d : α) :
    ∀ l1 l2 : List α, l1.length = l2.length →
      (∀ i, i < l1.length → l1.getD i d = l2.getD i d) → l1 = l2
  | [], [], _, _ => rfl
  | [], _ :: _, hlen, _ => by simp at hlen
  | _ :: _, [], hlen, _ => by simp at hlen
  | x :: xs, y :: ys, hlen, hget => by
    have h0 : x = y := by
      have := hget 0 (by simp)
      simpa [List.getD_cons_zero] using this
    have hrest : xs = ys := list_eq_of_getD d xs ys (by simpa using hlen)
      (fun i hi => by
        have := hget (i + 1) (by simpa using Nat.succ_lt_succ hi)
        simpa [List.getD_cons_succ] using this)
    rw [h0, hrest]

/-- When every scheduled part succeeds and each enqueue index completes
exactly once (in any order), every task record ends up in the unique
successful state and the aborted flag stays false. -/
theorem execTasks_success (upload : Nat → Except S3Error String)
    (ab : Except S3Error Unit) :
    ∀ (order : List Nat) (ts : List SchedTask) (evs : List Event),
      order.Nodup →
      (∀ i ∈ order, i < ts.length) →
      (∀ i, i < ts.length →
        (i ∈ order → ts.getD i (initTask 0) = initTask (i + 1)) ∧
        (i ∉ order → ts.getD i (initTask 0) = doneTask upload (i + 1))) →
      (∀ i ∈ order, ∃ tg, upload (i + 1) = .ok tg) →
      (execTasks upload ab order ts false evs).1.length = ts.length ∧
        (∀ i, i < ts.length →
          (execTasks upload ab order ts false evs).1.getD i (initTask 0) =
            doneTask upload (i + 1)) ∧
        (execTasks upload ab order ts false evs).2.1 = false := by
  intro order
  induction order with
  | nil =>
    intro ts evs _ _ hts _
    exact ⟨rfl, fun i hi => (hts i hi).2 (by simp), rfl⟩
  | cons j rest ih =>
    intro ts evs hnd hlt hts hok
    have hj : j < ts.length := hlt j (by simp)
    have hjinit : ts.getD j (initTask 0) = initTask (j + 1) :=
      (hts j hj).1 (by simp)
    obtain ⟨tg, htg⟩ := hok j (by simp)
    have hrun : runOneTask upload ab false (ts.getD j (initTask 0)) =
        (doneTask upload (j + 1), false, [.uploadPart (j + 1)]) := by
      rw [hjinit]
      unfold runOneTask
      simp [htg, initTask, doneTask, outTag]
    have hjrest : j ∉ rest := (List.nodup_cons.mp hnd).1
    have hndr : rest.Nodup := (List.nodup_cons.mp hnd).2
    have hstep : execTasks upload ab (j :: rest) ts false evs =
        execTasks upload ab rest (ts.set j (doneTask upload (j + 1))) false
          (evs ++ [.uploadPart (j + 1)]) := by
      conv_lhs => rw [execTasks]
      rw [hrun]
    rw [hstep]
    have hlen' : (ts.set j (doneTask upload (j + 1))).length = ts.length := by simp
    have hres := ih (ts.set j (doneTask upload (j + 1))) (evs ++ [.uploadPart (j + 1)])
      hndr
      (fun i hi => by rw [hlen']; exact hlt i (List.mem_cons_of_mem j hi))
      (fun i hi => by
        rw [hlen'] at hi
        constructor
        · intro hir
          have hij : i ≠ j := fun hc => hjrest (hc ▸ hir)
          rw [getD_set_ne ts j i _ _ (fun hc => hij hc.symm)]
          exact (hts i hi).1 (List.mem_cons_of_mem j hir)
        · intro hir
          by_cases hij : i = j
          · subst hij
            exact getD_set_self ts i _ _ hi
          · rw [getD_set_ne ts j i _ _ (fun hc => hij hc.symm)]
            exact (hts i hi).2 (by
              intro hmem
              rcases List.mem_cons.mp hmem with hc | hc
              · exact hij hc
              · exact hir hc))
      (fun i hi => hok i (List.mem_cons_of_mem j hi))
    rw [hlen'] at hres
    exact hres

/-- Harvest of an exception-free task list: the tags in enqueue order,
no further event, success. -/
theorem harvest_all_clean (ab : Except S3Error Unit) :
    ∀ (ts : List SchedTask) (tags : List String) (evs : List Event),
      (∀ t ∈ ts, t.exception = none) →
      harvest ab ts tags evs = (tags ++ ts.map (fun t => t.tag), evs, .ok ()) := by
  intro ts
  induction ts with
  | nil => intro tags evs _; simp [harvest]
  | cons t rest ih =>
    intro tags evs hclean
    have ht : t.exception = none := hclean t (by simp)
    unfold harvest
    rw [ht]
    rw [ih (tags ++ [t.tag]) evs (fun u hu => hclean u (List.mem_cons_of_mem t hu))]
    simp

/-- Under a success client, a scheduled run yields the in-order tag list
regardless of the executor completion order. -/
theorem schedRun_success (upload : Nat → Except S3Error String)
    (ab : Except S3Error Unit) (n : Nat) (order : List Nat)
    (hperm : order.Perm (List.range n))
    (hok : ∀ i < n, ∃ tg, upload (i + 1) = .ok tg) :
    (schedRun upload ab n order).1 =
      (List.range n).map (fun i => outTag (upload (i + 1))) ∧
      (schedRun upload ab n order).2.2 = .ok () := by
  have hmem : ∀ i, i ∈ order ↔ i < n := by
    intro i
    rw [hperm.mem_iff, List.mem_range]
  have hlen0 : (initTasks n).length = n := by simp [initTasks]
  have hres := execTasks_success upload ab order (initTasks n) []
    (hperm.nodup_iff.mpr (List.nodup_range n))
    (fun i hi => by rw [hlen0]; exact (hmem i).mp hi)
    (fun i hi => by
      rw [hlen0] at hi
      refine ⟨fun _ => ?_, fun hnot => absurd ((hmem i).mpr hi) hnot⟩
      simp only [initTasks]
      exact getD_map_range _ n i _ hi)
    (fun i hi => hok i ((hmem i).mp hi))
  rcases hx : execTasks upload ab order (initTasks n) false [] with ⟨ts, flag, evs⟩
  rw [hx] at hres
  simp only at hres
  obtain ⟨hlen, hgetD, _⟩ := hres
  rw [hlen0] at hlen
  have hts : ts = (List.range n).map (fun i => doneTask upload (i + 1)) := by
    refine list_eq_of_getD (initTask 0) ts _ (by simp [hlen]) ?_
    intro i hi
    rw [hlen] at hi
    rw [hgetD i (by rw [hlen0]; exact hi), getD_map_range _ n i _ hi]
  have hclean : ∀ t ∈ ts, t.exception = none := by
    intro t hmemt
    rw [hts] at hmemt
    obtain ⟨i, _, hti⟩ := List.mem_map.mp hmemt
    rw [← hti]
    rfl
  have hrunEq : schedRun upload ab n order = harvest ab ts [] evs := by
    unfold schedRun
    rw [hx]
  rw [hrunEq, harvest_all_clean ab ts [] evs hclean]
  simp [hts, List.map_map]
  intro a _
  rfl

/-- Claim C7: for a fixed client whose part uploads all succeed, the tag
list collected by the scheduler is identical for any two executor completion
orders, and equals the in-order (part-number-ordered) tag list. -/
theorem tag_order_executor_invariant (n : Nat) (upload : Nat → Except S3Error String)
    (ab : Except S3Error Unit) (o1 o2 : List Nat)
    (h1 : o1.Perm (List.range n)) (h2 : o2.Perm (List.range n))
    (hok : ∀ i < n, ∃ tg, upload (i + 1) = .ok tg) :
    (schedRun upload ab n o1).1 = (schedRun upload ab n o2).1 ∧
      (schedRun upload ab n o1).1 =
        (List.range n).map (fun i => outTag (upload (i + 1))) ∧
      (schedRun upload ab n o1).2.2 = .ok () := by
  obtain ⟨ht1, hr1⟩ := schedRun_success upload ab n o1 h1 hok
  obtain ⟨ht2, _⟩ := schedRun_success upload ab n o2 h2 hok
  exact ⟨ht1.trans ht2.symm, ht1, hr1⟩

/-- Witness for C7: three parts completed in order [2, 0, 1] versus [1, 2, 0]
give the same tag list ["t1", "t2", "t3"]. -/
theorem tag_order_executor_invariant_witness :
    ([2, 0, 1] : List Nat).Perm (List.range 3) ∧
      ([1, 2, 0] : List Nat).Perm (List.range 3) ∧
      (schedRun (fun pn => .ok ("t" ++ toString pn)) (.ok ()) 3 [2, 0, 1]).1 =
        (schedRun (fun pn => .ok ("t" ++ toString pn)) (.ok ()) 3 [1, 2, 0]).1 ∧
      (schedRun (fun pn => .ok ("t" ++ toString pn)) (.ok ()) 3 [2, 0, 1]).1 =
        (List.range 3).map (fun i => outTag (Except.ok (ε := S3Error) ("t" ++ toString (i + 1)))) ∧
      (schedRun (fun pn => .ok ("t" ++ toString pn)) (.ok ()) 3 [2, 0, 1]).2.2 = .ok () :=
  have hperm1 : ([2, 0, 1] : List Nat).Perm (List.range 3) := by decide
  have hperm2 : ([1, 2, 0] : List Nat).Perm (List.range 3) := by decide
  have h := tag_order_executor_invariant 3 (fun pn => .ok ("t" ++ toString pn)) (.ok ())
    [2, 0, 1] [1, 2, 0] hperm1 hperm2 (fun i _ => ⟨"t" ++ toString (i + 1), rfl⟩)
  ⟨hperm1, hperm2, h.1, h.2.1, h.2.2⟩

/-- `waitForAllBackGroundTasks` on a task list holding at least one stored
exception: it aborts (once more) and rethrows a `remote` error. -/
theorem harvest_fail (ab : Except S3Error Unit) :
    ∀ (ts : List SchedTask) (tags : List String) (evs : List Event),
      (∃ t ∈ ts, t.exception.isSome) →
      (∃ m, (harvest ab ts tags evs).2.2 = .error (.remote m)) ∧
        Event.abortMultipartUpload ∈ (harvest ab ts tags evs).2.1 := by
  intro ts
  induction ts with
  | nil => intro tags evs hfail; simp at hfail
  | cons t rest ih =>
    intro tags evs hfail
    rcases he : t.exception with _ | e
    · have hrest : ∃ u ∈ rest, u.exception.isSome := by
        rcases hfail with ⟨u, hu, hus⟩
        rcases List.mem_cons.mp hu with hc | hc
        · rw [hc, he] at hus; simp at hus
        · exact ⟨u, hc, hus⟩
      unfold harvest
      rw [he]
      exact ih (tags ++ [t.tag]) evs hrest
    · unfold harvest
      rw [he]
      exact ⟨⟨e.message, rfl⟩, by simp⟩

/-- `runOneTask` never reads the abort response (the source discards the
outcome of `AbortMultipartUpload`). -/
theorem runOneTask_abort_resp_irrelevant (upload : Nat → Except S3Error String)
    (a1 a2 : Except S3Error Unit) (ab : Bool) (t : SchedTask) :
    runOneTask upload a1 ab t = runOneTask upload a2 ab t := rfl

theorem execTasks_abort_resp_irrelevant (upload : Nat → Except S3Error String)
    (a1 a2 : Except S3Error Unit) :
    ∀ (order : List Nat) (ts : List SchedTask) (ab : Bool) (evs : List Event),
      execTasks upload a1 order ts ab evs = execTasks upload a2 order ts ab evs := by
  intro order
  induction order with
  | nil => intro ts ab evs; rfl
  | cons j rest ih =>
    intro ts ab evs
    conv_lhs => rw [execTasks]
    conv_rhs => rw [execTasks]
    rcases hr : runOneTask upload a1 ab (ts.getD j (initTask 0)) with ⟨t1, ab1, evs1⟩
    have hr2 : runOneTask upload a2 ab (ts.getD j (initTask 0)) = (t1, ab1, evs1) := hr
    rw [hr2]
    exact ih (ts.set j t1) ab1 (evs ++ evs1)

theorem harvest_abort_resp_irrelevant (a1 a2 : Except S3Error Unit) :
    ∀ (ts : List SchedTask) (tags : List String) (evs : List Event),
      harvest a1 ts tags evs = harvest a2 ts tags evs := by
  intro ts
  induction ts with
  | nil => intro tags evs; rfl
  | cons t rest ih =>
    intro tags evs
    unfold harvest
    rcases t.exception with _ | e
    · exact ih (tags ++ [t.tag]) evs
    · rfl

/-- Claim C4 (amended): in the COPY engine (copyS3File.cpp), when some part
upload fails, `AbortMultipartUpload` is invoked at least once before the
failure surfaces — inline mode aborts right between the failed submit and
the throw, and scheduled mode aborts again in
`waitForAllBackGroundTasks` — and every abort invocation is tolerated: the
run is identical for any two abort responses, because the response is
discarded.  The STREAMING engine (`WriteBufferFromS3::writePart`), by
contrast, never invokes abort at all. -/
theorem abort_before_failure_copy_engine (n : Nat)
    (upload : Nat → Except S3Error String) (ab1 ab2 : Except S3Error Unit)
    (order : List Nat)
    (hfail : ∃ t ∈ (execTasks upload ab1 order (initTasks n) false []).1,
      t.exception.isSome) :
    (∃ m, (schedRun upload ab1 n order).2.2 = .error (.remote m)) ∧
      Event.abortMultipartUpload ∈ (schedRun upload ab1 n order).2.1 ∧
      schedRun upload ab1 n order = schedRun upload ab2 n order ∧
      (∀ (submit : Nat → Nat → Nat → Except S3Error String) (pev : Nat → Event)
          (pn p_off p_size : Nat) (tags : List String) (e : S3Error),
        submit pn p_off p_size = .error e → p_size ≠ 0 →
        uploadPartInline submit pev pn p_off p_size tags =
          (tags, [pev pn, .abortMultipartUpload], some (.remote e.message))) ∧
      (∀ (s : PartUploadSettings) (c : WBClient) (st : WBState),
        Event.abortMultipartUpload ∉ (writePart s c st).2.1) := by
  rcases hx : execTasks upload ab1 order (initTasks n) false [] with ⟨ts, flag, evs⟩
  rw [hx] at hfail
  simp only at hfail
  have hrunEq : schedRun upload ab1 n order = harvest ab1 ts [] evs := by
    unfold schedRun
    rw [hx]
  have hh := harvest_fail ab1 ts [] evs hfail
  refine ⟨by rw [hrunEq]; exact hh.1, by rw [hrunEq]; exact hh.2, ?_, ?_, ?_⟩
  · unfold schedRun
    rw [execTasks_abort_resp_irrelevant upload ab1 ab2 order (initTasks n) false []]
    rcases execTasks upload ab2 order (initTasks n) false [] with ⟨ts2, flag2, evs2⟩
    exact harvest_abort_resp_irrelevant ab1 ab2 ts2 [] evs2
  · intro submit pev pn p_off p_size tags e hsub hsz
    unfold uploadPartInline
    rw [if_neg hsz]
    rw [hsub]
  · intro s c st
    unfold writePart
    by_cases h1 : st.temp < 0
    · simp [h1]
    by_cases h2 : st.temp = 0
    · simp [h1, h2]
    simp only [if_neg h1, if_neg h2]
    rcases hfe : fillUploadRequest s st with ⟨st1, r⟩
    cases r with
    | error e =>
      by_cases hl : st.part_tags.length = 10000 <;> simp [hl]
    | ok pn0 =>
      rcases hup : c.uploadPart pn0 with e | tag <;>
        by_cases hl : st.part_tags.length = 10000 <;>
        simp [hup, hl]

/-- A part-upload client that fails on every part. -/
def failUpload : Nat → Except S3Error String :=
  fun _ => .error { errorType := .otherType, exceptionName := "E", message := "boom" }

/-- A server that refuses `AbortMultipartUpload` (response is discarded by
the engine anyway). -/
def abortRefused : Except S3Error Unit :=
  .error { errorType := .noSuchKey, exceptionName := "NoSuchKey", message := "abort refused" }

/-- Witness for C4 (amended): two scheduled parts, both failing, completion
order [0, 1]: the run errors, the trace carries TWO aborts (one from the
failed submit, one from the wait), and any abort response gives the same
run. -/
theorem abort_before_failure_copy_engine_witness :
    (∃ t ∈ (execTasks failUpload (.ok ()) [0, 1] (initTasks 2) false []).1,
        t.exception.isSome) ∧
      (∃ m, (schedRun failUpload (.ok ()) 2 [0, 1]).2.2 = .error (.remote m)) ∧
      Event.abortMultipartUpload ∈ (schedRun failUpload (.ok ()) 2 [0, 1]).2.1 ∧
      schedRun failUpload (.ok ()) 2 [0, 1] = schedRun failUpload abortRefused 2 [0, 1] ∧
      ((schedRun failUpload (.ok ()) 2 [0, 1]).2.1).count Event.abortMultipartUpload = 2 :=
  have hfail : ∃ t ∈ (execTasks failUpload (.ok ()) [0, 1] (initTasks 2) false []).1,
      t.exception.isSome := by decide
  have h := abort_before_failure_copy_engine 2 failUpload (.ok ())
    abortRefused [0, 1] hfail
  ⟨hfail, h.1, h.2.1, h.2.2.1, by decide⟩
